import Mathlib

set_option maxRecDepth 8000

/-!
Shallow embedding of the paytr-go payment client library
(payment/payment.go, types/payment.go).

Byte-level primitives first: SHA-256, HMAC-SHA256 and standard base64,
mirroring Go's crypto/sha256, crypto/hmac and encoding/base64 exactly as
the token generators use them.  Bytes are naturals below 256; 32-bit
words are naturals reduced modulo 2^32.
-/

def w32 (n : Nat) : Nat := n % 4294967296

def rotr32 (x n : Nat) : Nat := w32 ((x >>> n) ||| (x <<< (32 - n)))

def bigSigma0 (x : Nat) : Nat := (rotr32 x 2) ^^^ (rotr32 x 13) ^^^ (rotr32 x 22)

def bigSigma1 (x : Nat) : Nat := (rotr32 x 6) ^^^ (rotr32 x 11) ^^^ (rotr32 x 25)

def smallSigma0 (x : Nat) : Nat := (rotr32 x 7) ^^^ (rotr32 x 18) ^^^ (x >>> 3)

def smallSigma1 (x : Nat) : Nat := (rotr32 x 17) ^^^ (rotr32 x 19) ^^^ (x >>> 10)

def ch32 (x y z : Nat) : Nat := (x &&& y) ^^^ ((x ^^^ 4294967295) &&& z)

def maj32 (x y z : Nat) : Nat := (x &&& y) ^^^ (x &&& z) ^^^ (y &&& z)

def K256 : List Nat :=
  [1116352408, 1899447441, 3049323471, 3921009573, 961987163, 1508970993,
   2453635748, 2870763221, 3624381080, 310598401, 607225278, 1426881987,
   1925078388, 2162078206, 2614888103, 3248222580, 3835390401, 4022224774,
   264347078, 604807628, 770255983, 1249150122, 1555081692, 1996064986,
   2554220882, 2821834349, 2952996808, 3210313671, 3336571891, 3584528711,
   113926993, 338241895, 666307205, 773529912, 1294757372, 1396182291,
   1695183700, 1986661051, 2177026350, 2456956037, 2730485921, 2820302411,
   3259730800, 3345764771, 3516065817, 3600352804, 4094571909, 275423344,
   430227734, 506948616, 659060556, 883997877, 958139571, 1322822218,
   1537002063, 1747873779, 1955562222, 2024104815, 2227730452, 2361852424,
   2428436474, 2756734187, 3204031479, 3329325298]

def H256 : List Nat :=
  [1779033703, 3144134277, 1013904242, 2773480762,
   1359893119, 2600822924, 528734635, 1541459225]

/-- Big-endian 32-bit words from a byte list (drops a trailing partial group). -/
def bytesToWords : List Nat → List Nat
  | a :: b :: c :: d :: rest => (((a * 256 + b) * 256 + c) * 256 + d) :: bytesToWords rest
  | _ => []

/-- One step of the SHA-256 message-schedule extension; the schedule so far
is kept most-recent-first. -/
def stepW (rev : List Nat) : List Nat :=
  w32 (smallSigma1 (rev.getD 1 0) + rev.getD 6 0 + smallSigma0 (rev.getD 14 0) + rev.getD 15 0) :: rev

def extendW : Nat → List Nat → List Nat
  | 0, rev => rev
  | k + 1, rev => extendW k (stepW rev)

/-- One SHA-256 compression round; the state is the eight working variables. -/
def roundStep (st : List Nat) (wk : Nat × Nat) : List Nat :=
  let a := st.getD 0 0
  let b := st.getD 1 0
  let c := st.getD 2 0
  let d := st.getD 3 0
  let e := st.getD 4 0
  let f := st.getD 5 0
  let g := st.getD 6 0
  let h := st.getD 7 0
  let t1 := w32 (h + bigSigma1 e + ch32 e f g + wk.1 + wk.2)
  let t2 := w32 (bigSigma0 a + maj32 a b c)
  [w32 (t1 + t2), a, b, c, w32 (d + t1), e, f, g]

/-- SHA-256 compression of one 64-byte block into the running hash value. -/
def compressBlock (h : List Nat) (block : List Nat) : List Nat :=
  let ws := (extendW 48 (bytesToWords block).reverse).reverse
  let st := (ws.zip K256).foldl roundStep h
  (h.zip st).map (fun p => w32 (p.1 + p.2))

/-- Big-endian eight-byte encoding of a 64-bit value. -/
def be64 (n : Nat) : List Nat :=
  [(n >>> 56) % 256, (n >>> 48) % 256, (n >>> 40) % 256, (n >>> 32) % 256,
   (n >>> 24) % 256, (n >>> 16) % 256, (n >>> 8) % 256, n % 256]

/-- SHA-256 padding: a 0x80 byte, zeros to 56 mod 64, then the bit length. -/
def padMsg (msg : List Nat) : List Nat :=
  let L := msg.length
  msg ++ 128 :: (List.replicate ((119 - L % 64) % 64) 0 ++ be64 ((8 * L) % 18446744073709551616))

/-- Folds the compression function over consecutive 64-byte blocks; the
first argument is fuel bounding the number of blocks, always sufficient
when instantiated with the padded length. -/
def sha256Blocks : Nat → List Nat → List Nat → List Nat
  | 0, h, _ => h
  | fuel + 1, h, msg => if msg.isEmpty then h else sha256Blocks fuel (compressBlock h (msg.take 64)) (msg.drop 64)

def wordBytes (w : Nat) : List Nat := [(w >>> 24) % 256, (w >>> 16) % 256, (w >>> 8) % 256, w % 256]

def sha256 (msg : List Nat) : List Nat :=
  let padded := padMsg msg
  ((sha256Blocks padded.length H256 padded).map wordBytes).flatten

/-- HMAC-SHA256 with Go's crypto/hmac construction (block size 64). -/
def hmacSha256 (key msg : List Nat) : List Nat :=
  let k0 := if 64 < key.length then sha256 key else key
  let kp := k0 ++ List.replicate (64 - k0.length) 0
  sha256 ((kp.map (fun b => b ^^^ 92)) ++ sha256 ((kp.map (fun b => b ^^^ 54)) ++ msg))

def b64Alphabet : List Char :=
  "ABCDEFGHIJKLMNOPQRSTUVWXYZabcdefghijklmnopqrstuvwxyz0123456789+/".data

def b64Char (n : Nat) : Char := b64Alphabet.getD n '?'

/-- Standard base64 with '=' padding, as in Go's encoding/base64 StdEncoding. -/
def base64Encode : List Nat → String
  | [] => ""
  | [a] => String.mk [b64Char (a >>> 2), b64Char ((a % 4) <<< 4), '=', '=']
  | [a, b] => String.mk [b64Char (a >>> 2), b64Char (((a % 4) <<< 4) ||| (b >>> 4)),
      b64Char ((b % 16) <<< 2), '=']
  | a :: b :: c :: rest =>
    String.mk [b64Char (a >>> 2), b64Char (((a % 4) <<< 4) ||| (b >>> 4)),
      b64Char (((b % 16) <<< 2) ||| (c >>> 6)), b64Char (c % 64)] ++ base64Encode rest

/-- UTF-8 encoding of one character, as Go's []byte(string) conversion. -/
def utf8Bytes (c : Char) : List Nat :=
  let n := c.toNat
  if n < 128 then [n]
  else if n < 2048 then [192 + n / 64, 128 + n % 64]
  else if n < 65536 then [224 + n / 4096, 128 + (n / 64) % 64, 128 + n % 64]
  else [240 + n / 262144, 128 + (n / 4096) % 64, 128 + (n / 64) % 64, 128 + n % 64]

def strBytes (s : String) : List Nat := (s.data.map utf8Bytes).flatten

/-!
Decimal formatting.  Both `strconv.FormatFloat(x, 'f', 2, 64)` (used by
`generateToken`) and the `%.2f` verb of `fmt.Sprintf` (used by
`RefundPayment`) render the amount with exactly two fractional digits,
rounding to nearest with ties to even.  Amounts (Go float64 values) are
modelled as exact rationals.
-/

def digitChar (n : Nat) : Char :=
  match n with
  | 0 => '0' | 1 => '1' | 2 => '2' | 3 => '3' | 4 => '4'
  | 5 => '5' | 6 => '6' | 7 => '7' | 8 => '8' | 9 => '9'
  | _ => '?'

/-- Decimal digits of a natural number, most significant first; the first
argument is fuel, always sufficient at `n + 1`. -/
def natDigitsAux : Nat → Nat → List Char
  | 0, _ => []
  | fuel + 1, n => if n < 10 then [digitChar n] else natDigitsAux fuel (n / 10) ++ [digitChar (n % 10)]

def natDigits (n : Nat) : List Char := natDigitsAux (n + 1) n

def natStr (n : Nat) : String := String.mk (natDigits n)

/-- `|q| * 100` rounded to the nearest natural, ties to even: the rounding
Go's strconv applies when cutting the exact decimal expansion at two
fractional digits.  Computed on the numerator/denominator pair. -/
def roundCentsAbs (q : ℚ) : Nat :=
  let n := 100 * q.num.natAbs
  let d := q.den
  let f := n / d
  let r2 := 2 * (n % d)
  if r2 < d then f
  else if d < r2 then f + 1
  else if f % 2 = 0 then f else f + 1

/-- Two-decimal rendering of the absolute value of a rational: integer
part, '.', and exactly two fractional digits. -/
def formatAbs2 (q : ℚ) : String :=
  let n := roundCentsAbs q
  natStr (n / 100) ++ "." ++ String.mk [digitChar (n / 10 % 10), digitChar (n % 10)]

/-- Model of `strconv.FormatFloat(x, 'f', 2, 64)` / `fmt.Sprintf("%.2f", x)`
over an exact-rational amount: a sign for negative values, then the
two-decimal rendering of the absolute value. -/
def formatFloat2 (q : ℚ) : String :=
  if q.num < 0 then "-" ++ formatAbs2 q else formatAbs2 q


/-!
Domain model, from types/payment.go (package domain).
-/

def PayTRBaseURL : String := "https://www.paytr.com"

structure PayTRConfig where
  MerchantID : String
  MerchantKey : String
  MerchantSalt : String
deriving DecidableEq, Repr

structure CommonPaymentRequest where
  MerchantID : String
  UserIP : String
  MerchantOid : String
  Email : String
  PaymentAmount : ℚ
  PaymentType : String
  Currency : String
  TestMode : String
  NonThreeD : String
  MerchantOkURL : String
  MerchantFailURL : String
  UserName : String
  UserAddress : String
  UserPhone : String
  UserBasket : String
  DebugOn : String
  ClientLang : String
  PayTRToken : String
  InstallmentCount : String
deriving DecidableEq, Repr

structure NewCardPaymentRequest where
  common : CommonPaymentRequest
  CardOwner : String
  CardNumber : String
  ExpiryMonth : String
  ExpiryYear : String
  CVV : String
  CardType : String
  StoreCard : String
deriving DecidableEq, Repr

structure SavedCardPaymentRequest where
  common : CommonPaymentRequest
  UToken : String
  CToken : String
  CVV : String
  RecurringPayment : String
deriving DecidableEq, Repr

structure AddNewCardRequest where
  UserID : String
  CardOwner : String
  CardNumber : String
  ExpiryMonth : String
  ExpiryYear : String
  CVV : String
  CardType : String
  UserIP : String
  MerchantOid : String
  Email : String
  UserName : String
  UserAddress : String
  UserPhone : String
  MerchantOkURL : String
  MerchantFailURL : String
  ClientLang : String
  Currency : String
  PaymentAmount : ℚ
deriving DecidableEq, Repr

structure RefundRequest where
  MerchantOid : String
  ReturnAmount : ℚ
  ReferenceNo : String
deriving DecidableEq, Repr

structure StatusInquiryRequest where
  MerchantOid : String
deriving DecidableEq, Repr

/-- JSON values, modelling Go's interface{} content of a decoded
map[string]interface{} payload. -/
inductive JValue where
  | str (s : String)
  | num (q : ℚ)
  | bool (b : Bool)
  | arr (vs : List JValue)
  | obj (fields : List (String × JValue))
  | null

structure PayTRResponse where
  status : String
  message : String
  data : List (String × JValue)

structure SubmerchantPayment where
  SubmerchantId : String
  SubmerchantPrice : String
  SubmerchantPayoutRate : String
  SubmerchantPayoutAmount : String
deriving DecidableEq, Repr

structure StatusInquiryResponse where
  Status : String
  PaymentAmount : String
  PaymentTotal : String
  PaymentDate : String
  Currency : String
  NetTutar : String
  KesintiTutari : String
  Taksit : String
  KartMarka : String
  MaskedPan : String
  OdemeTipi : String
  TestMode : String
  Returns : String
  ErrNo : String
  ErrMsg : String
  SubmerchantPayments : List SubmerchantPayment
deriving DecidableEq, Repr

structure TransactionDetailsRequest where
  StartDate : String
  EndDate : String
  Dummy : Int
deriving DecidableEq, Repr

structure Transaction where
  IslemTipi : String
  NetTutar : String
  KesintiTutari : String
  KesintiOrani : String
  IslemTutari : String
  OdemeTutari : String
  IslemTarihi : String
  ParaBirimi : String
  Taksit : String
  KartMarka : String
  KartNo : String
  SiparisNo : String
  OdemeTipi : String
deriving DecidableEq, Repr

structure TransactionDetailsResponse where
  Status : String
  Transactions : List Transaction
  ErrMsg : String
deriving DecidableEq, Repr

/-!
Token generators, from payment/payment.go.
-/

/-- The concatenation `fmt.Sprintf("%s%s%s%s%s%s%s%s%s%s", ...)` built by
`generateToken` before the salt is appended. -/
def hashStr (cfg : PayTRConfig) (req : CommonPaymentRequest) : String :=
  cfg.MerchantID ++ req.UserIP ++ req.MerchantOid ++ req.Email ++
    formatFloat2 req.PaymentAmount ++ req.PaymentType ++ req.InstallmentCount ++
    req.Currency ++ req.TestMode ++ req.NonThreeD

/-- `generateToken`: HMAC-SHA256 of the concatenated signed fields plus the
merchant salt, keyed by the merchant key, base64-encoded. -/
def generateToken (cfg : PayTRConfig) (req : CommonPaymentRequest) : String :=
  base64Encode (hmacSha256 (strBytes cfg.MerchantKey) (strBytes (hashStr cfg req ++ cfg.MerchantSalt)))

/-- `generateSimpleToken`: HMAC-SHA256 of the given data plus the merchant
salt, keyed by the merchant key, base64-encoded. -/
def generateSimpleToken (cfg : PayTRConfig) (data : String) : String :=
  base64Encode (hmacSha256 (strBytes cfg.MerchantKey) (strBytes (data ++ cfg.MerchantSalt)))

/-!
Request shaping, from payment/payment.go.  Each operation's outbound
payload is built exactly as the Go method builds it before handing it to
`sendRequest`.
-/

def odemeURL : String := PayTRBaseURL ++ "/odeme"

def iadeURL : String := PayTRBaseURL ++ "/odeme/iade"

def durumSorguURL : String := PayTRBaseURL ++ "/odeme/durum-sorgu"

def islemDokumuURL : String := PayTRBaseURL ++ "/rapor/islem-dokumu"

def binDetailURL : String := PayTRBaseURL ++ "/odeme/api/bin-detail"

def capiListURL : String := PayTRBaseURL ++ "/odeme/capi/list"

def capiDeleteURL : String := PayTRBaseURL ++ "/odeme/capi/delete"

/-- `NewCardPayment`: sets `req.PayTRToken = s.generateToken(req.CommonPaymentRequest)`. -/
def newCardPaymentPayload (cfg : PayTRConfig) (req : NewCardPaymentRequest) : NewCardPaymentRequest :=
  { req with common := { req.common with PayTRToken := generateToken cfg req.common } }

/-- `SavedCardPayment`: sets `req.PayTRToken = s.generateToken(req.CommonPaymentRequest)`. -/
def savedCardPaymentPayload (cfg : PayTRConfig) (req : SavedCardPaymentRequest) : SavedCardPaymentRequest :=
  { req with common := { req.common with PayTRToken := generateToken cfg req.common } }

/-- `RecurringPayment`: first forces `req.RecurringPayment = "1"`, then
computes the token like `SavedCardPayment`. -/
def recurringPaymentPayload (cfg : PayTRConfig) (req : SavedCardPaymentRequest) : SavedCardPaymentRequest :=
  let req1 := { req with RecurringPayment := "1" }
  { req1 with common := { req1.common with PayTRToken := generateToken cfg req1.common } }

/-- The anonymous struct built by `RefundPayment`. -/
structure RefundPayload where
  MerchantID : String
  MerchantOid : String
  ReturnAmount : ℚ
  PayTRToken : String
  ReferenceNo : String
deriving DecidableEq, Repr

def refundPayload (cfg : PayTRConfig) (req : RefundRequest) : RefundPayload :=
  { MerchantID := cfg.MerchantID
    MerchantOid := req.MerchantOid
    ReturnAmount := req.ReturnAmount
    ReferenceNo := req.ReferenceNo
    PayTRToken := generateSimpleToken cfg (cfg.MerchantID ++ req.MerchantOid ++ formatFloat2 req.ReturnAmount) }

/-- The anonymous struct built by `MerchantStatusInquiry`. -/
structure StatusInquiryPayload where
  MerchantID : String
  MerchantOid : String
  PayTRToken : String
deriving DecidableEq, Repr

def statusInquiryPayload (cfg : PayTRConfig) (req : StatusInquiryRequest) : StatusInquiryPayload :=
  { MerchantID := cfg.MerchantID
    MerchantOid := req.MerchantOid
    PayTRToken := generateSimpleToken cfg (cfg.MerchantID ++ req.MerchantOid) }

/-- The anonymous struct built by `GetTransactionDetails`. -/
structure TransactionDetailsPayload where
  MerchantID : String
  StartDate : String
  EndDate : String
  Dummy : Int
  PayTRToken : String
deriving DecidableEq, Repr

def transactionDetailsPayload (cfg : PayTRConfig) (req : TransactionDetailsRequest) : TransactionDetailsPayload :=
  { MerchantID := cfg.MerchantID
    StartDate := req.StartDate
    EndDate := req.EndDate
    Dummy := req.Dummy
    PayTRToken := generateSimpleToken cfg (cfg.MerchantID ++ req.StartDate ++ req.EndDate) }

/-- The anonymous struct built by `GetBinDetails`. -/
structure BinDetailsPayload where
  MerchantID : String
  BinNumber : String
  PayTRToken : String
deriving DecidableEq, Repr

def binDetailsPayload (cfg : PayTRConfig) (binNumber : String) : BinDetailsPayload :=
  { MerchantID := cfg.MerchantID
    BinNumber := binNumber
    PayTRToken := generateSimpleToken cfg (binNumber ++ cfg.MerchantID) }

/-- The anonymous struct built by `GetSavedCards`. -/
structure SavedCardsPayload where
  MerchantID : String
  UToken : String
  PayTRToken : String
deriving DecidableEq, Repr

def savedCardsPayload (cfg : PayTRConfig) (utoken : String) : SavedCardsPayload :=
  { MerchantID := cfg.MerchantID
    UToken := utoken
    PayTRToken := generateSimpleToken cfg utoken }

/-- The anonymous struct built by `DeleteSavedCard`. -/
structure DeleteSavedCardPayload where
  MerchantID : String
  UToken : String
  CToken : String
  PayTRToken : String
deriving DecidableEq, Repr

def deleteSavedCardPayload (cfg : PayTRConfig) (utoken ctoken : String) : DeleteSavedCardPayload :=
  { MerchantID := cfg.MerchantID
    UToken := utoken
    CToken := ctoken
    PayTRToken := generateSimpleToken cfg (utoken ++ ctoken) }

/-- `AddNewCard`: synthesizes a minimal new-card payment request. -/
def addNewCardPayload (cfg : PayTRConfig) (req : AddNewCardRequest) : NewCardPaymentRequest :=
  let paytrReq : NewCardPaymentRequest :=
    { common :=
        { MerchantID := cfg.MerchantID
          UserIP := req.UserIP
          MerchantOid := req.MerchantOid
          Email := req.Email
          PaymentAmount := 1
          PaymentType := "card"
          Currency := "TRY"
          TestMode := "1"
          NonThreeD := "0"
          MerchantOkURL := req.MerchantOkURL
          MerchantFailURL := req.MerchantFailURL
          UserName := req.CardOwner
          UserAddress := req.UserAddress
          UserPhone := req.UserPhone
          UserBasket := "[[\x22Card Validation\x22, \x221\x22, 1]]"
          DebugOn := "1"
          ClientLang := "tr"
          PayTRToken := ""
          InstallmentCount := "0" }
      CardOwner := req.CardOwner
      CardNumber := req.CardNumber
      ExpiryMonth := req.ExpiryMonth
      ExpiryYear := req.ExpiryYear
      CVV := req.CVV
      CardType := req.CardType
      StoreCard := "1" }
  { paytrReq with common := { paytrReq.common with PayTRToken := generateToken cfg paytrReq.common } }

/-!
JSON serialization of the outbound payloads, following the json struct
tags in types/payment.go and payment/payment.go.  Go flattens the
embedded CommonPaymentRequest into the top-level object.
-/

def encodeCommonFields (c : CommonPaymentRequest) : List (String × JValue) :=
  [("merchant_id", JValue.str c.MerchantID),
   ("user_ip", JValue.str c.UserIP),
   ("merchant_oid", JValue.str c.MerchantOid),
   ("email", JValue.str c.Email),
   ("payment_amount", JValue.num c.PaymentAmount),
   ("payment_type", JValue.str c.PaymentType),
   ("currency", JValue.str c.Currency),
   ("test_mode", JValue.str c.TestMode),
   ("non_3d", JValue.str c.NonThreeD),
   ("merchant_ok_url", JValue.str c.MerchantOkURL),
   ("merchant_fail_url", JValue.str c.MerchantFailURL),
   ("user_name", JValue.str c.UserName),
   ("user_address", JValue.str c.UserAddress),
   ("user_phone", JValue.str c.UserPhone),
   ("user_basket", JValue.str c.UserBasket),
   ("debug_on", JValue.str c.DebugOn),
   ("client_lang", JValue.str c.ClientLang),
   ("paytr_token", JValue.str c.PayTRToken),
   ("installment_count", JValue.str c.InstallmentCount)]

def encodeNewCardRequest (r : NewCardPaymentRequest) : JValue :=
  JValue.obj (encodeCommonFields r.common ++
    [("cc_owner", JValue.str r.CardOwner),
     ("card_number", JValue.str r.CardNumber),
     ("expiry_month", JValue.str r.ExpiryMonth),
     ("expiry_year", JValue.str r.ExpiryYear),
     ("cvv", JValue.str r.CVV),
     ("card_type", JValue.str r.CardType),
     ("store_card", JValue.str r.StoreCard)])

def encodeSavedCardRequest (r : SavedCardPaymentRequest) : JValue :=
  JValue.obj (encodeCommonFields r.common ++
    [("utoken", JValue.str r.UToken),
     ("ctoken", JValue.str r.CToken),
     ("cvv", JValue.str r.CVV),
     ("recurring_payment", JValue.str r.RecurringPayment)])

/-- `reference_no` carries `omitempty`. -/
def encodeRefundPayload (r : RefundPayload) : JValue :=
  JValue.obj ([("merchant_id", JValue.str r.MerchantID),
    ("merchant_oid", JValue.str r.MerchantOid),
    ("return_amount", JValue.num r.ReturnAmount),
    ("paytr_token", JValue.str r.PayTRToken)] ++
    (if r.ReferenceNo = "" then [] else [("reference_no", JValue.str r.ReferenceNo)]))

def encodeStatusInquiryPayload (r : StatusInquiryPayload) : JValue :=
  JValue.obj [("merchant_id", JValue.str r.MerchantID),
    ("merchant_oid", JValue.str r.MerchantOid),
    ("paytr_token", JValue.str r.PayTRToken)]

/-- `dummy` carries `omitempty`. -/
def encodeTransactionDetailsPayload (r : TransactionDetailsPayload) : JValue :=
  JValue.obj ([("merchant_id", JValue.str r.MerchantID),
    ("start_date", JValue.str r.StartDate),
    ("end_date", JValue.str r.EndDate)] ++
    (if r.Dummy = 0 then [] else [("dummy", JValue.num (r.Dummy : ℚ))]) ++
    [("paytr_token", JValue.str r.PayTRToken)])

def encodeBinDetailsPayload (r : BinDetailsPayload) : JValue :=
  JValue.obj [("merchant_id", JValue.str r.MerchantID),
    ("bin_number", JValue.str r.BinNumber),
    ("paytr_token", JValue.str r.PayTRToken)]

def encodeSavedCardsPayload (r : SavedCardsPayload) : JValue :=
  JValue.obj [("merchant_id", JValue.str r.MerchantID),
    ("utoken", JValue.str r.UToken),
    ("paytr_token", JValue.str r.PayTRToken)]

def encodeDeleteSavedCardPayload (r : DeleteSavedCardPayload) : JValue :=
  JValue.obj [("merchant_id", JValue.str r.MerchantID),
    ("utoken", JValue.str r.UToken),
    ("ctoken", JValue.str r.CToken),
    ("paytr_token", JValue.str r.PayTRToken)]

/-!
Transport, from `sendRequest`.  The five fallible stages — payload JSON
serialization, HTTP request construction, the transport call, reading
the response body, and JSON deserialization of the body — are supplied
by an environment, mirroring Go's injectable HTTPClient plus the
library functions the method calls.
-/

structure HttpRequest where
  method : String
  url : String
  body : List Nat
  contentType : String
deriving DecidableEq, Repr

structure HttpResponse where
  statusCode : Nat
  bodyBytes : List Nat
deriving DecidableEq, Repr

structure HttpEnv (ε : Type) where
  marshal : JValue → Except ε (List Nat)
  newRequest : String → String → List Nat → Except ε HttpRequest
  doCall : HttpRequest → Except ε HttpResponse
  readAll : HttpResponse → Except ε (List Nat)
  unmarshal : List Nat → Except ε PayTRResponse

/-- `sendRequest`, instrumented with the number of transport calls
(`s.client.Do` invocations) it performs. -/
def sendRequestInstr {ε : Type} (env : HttpEnv ε) (payload : JValue) (url : String) :
    Except ε PayTRResponse × Nat :=
  match env.marshal payload with
  | .error e => (.error e, 0)
  | .ok jsonData =>
    match env.newRequest "POST" url jsonData with
    | .error e => (.error e, 0)
    | .ok httpReq =>
      match env.doCall { httpReq with contentType := "application/json" } with
      | .error e => (.error e, 1)
      | .ok resp =>
        match env.readAll resp with
        | .error e => (.error e, 1)
        | .ok body =>
          match env.unmarshal body with
          | .error e => (.error e, 1)
          | .ok result => (.ok result, 1)

def sendRequest {ε : Type} (env : HttpEnv ε) (payload : JValue) (url : String) :
    Except ε PayTRResponse :=
  (sendRequestInstr env payload url).1

/-!
Service operations over the transport environment.
-/

def newCardPayment (env : HttpEnv String) (cfg : PayTRConfig) (req : NewCardPaymentRequest) :
    Except String PayTRResponse :=
  sendRequest env (encodeNewCardRequest (newCardPaymentPayload cfg req)) odemeURL

def savedCardPayment (env : HttpEnv String) (cfg : PayTRConfig) (req : SavedCardPaymentRequest) :
    Except String PayTRResponse :=
  sendRequest env (encodeSavedCardRequest (savedCardPaymentPayload cfg req)) odemeURL

def recurringPayment (env : HttpEnv String) (cfg : PayTRConfig) (req : SavedCardPaymentRequest) :
    Except String PayTRResponse :=
  sendRequest env (encodeSavedCardRequest (recurringPaymentPayload cfg req)) odemeURL

def refundPayment (env : HttpEnv String) (cfg : PayTRConfig) (req : RefundRequest) :
    Except String PayTRResponse :=
  sendRequest env (encodeRefundPayload (refundPayload cfg req)) iadeURL

def getBinDetails (env : HttpEnv String) (cfg : PayTRConfig) (binNumber : String) :
    Except String PayTRResponse :=
  sendRequest env (encodeBinDetailsPayload (binDetailsPayload cfg binNumber)) binDetailURL

def getSavedCards (env : HttpEnv String) (cfg : PayTRConfig) (utoken : String) :
    Except String PayTRResponse :=
  sendRequest env (encodeSavedCardsPayload (savedCardsPayload cfg utoken)) capiListURL

def deleteSavedCard (env : HttpEnv String) (cfg : PayTRConfig) (utoken ctoken : String) :
    Except String PayTRResponse :=
  sendRequest env (encodeDeleteSavedCardPayload (deleteSavedCardPayload cfg utoken ctoken)) capiDeleteURL

def addNewCard (env : HttpEnv String) (cfg : PayTRConfig) (req : AddNewCardRequest) :
    Except String PayTRResponse :=
  sendRequest env (encodeNewCardRequest (addNewCardPayload cfg req)) odemeURL

/-!
Response decoding: a model of mapstructure.Decode for the two typed
result records.  mapstructure matches a map key against a struct field
name case-insensitively; a missing key leaves the zero value; a value
of the wrong shape is an error.
-/

def lowerStr (s : String) : String := String.mk (s.data.map Char.toLower)

def lookupCI (m : List (String × JValue)) (field : String) : Option JValue :=
  (m.find? (fun kv => lowerStr kv.1 = lowerStr field)).map (fun kv => kv.2)

def getStrField (m : List (String × JValue)) (field : String) : Except String String :=
  match lookupCI m field with
  | none => .ok ""
  | some (JValue.str s) => .ok s
  | some _ => .error (field ++ ": unconvertible type")

def decodeSubmerchant (v : JValue) : Except String SubmerchantPayment :=
  match v with
  | JValue.obj m => do
    let a ← getStrField m "SubmerchantId"
    let b ← getStrField m "SubmerchantPrice"
    let c ← getStrField m "SubmerchantPayoutRate"
    let d ← getStrField m "SubmerchantPayoutAmount"
    pure { SubmerchantId := a, SubmerchantPrice := b, SubmerchantPayoutRate := c, SubmerchantPayoutAmount := d }
  | _ => .error "SubmerchantPayment: unconvertible type"

def decodeSubmerchantList (vs : List JValue) : Except String (List SubmerchantPayment) :=
  vs.foldr (fun v acc => do
    let x ← decodeSubmerchant v
    let rest ← acc
    pure (x :: rest)) (pure [])

def decodeStatusInquiry (m : List (String × JValue)) : Except String StatusInquiryResponse := do
  let st ← getStrField m "Status"
  let pa ← getStrField m "PaymentAmount"
  let pt ← getStrField m "PaymentTotal"
  let pd ← getStrField m "PaymentDate"
  let cu ← getStrField m "Currency"
  let nt ← getStrField m "NetTutar"
  let kt ← getStrField m "KesintiTutari"
  let tk ← getStrField m "Taksit"
  let km ← getStrField m "KartMarka"
  let mp ← getStrField m "MaskedPan"
  let ot ← getStrField m "OdemeTipi"
  let tm ← getStrField m "TestMode"
  let rt ← getStrField m "Returns"
  let en ← getStrField m "ErrNo"
  let em ← getStrField m "ErrMsg"
  let sp ← match lookupCI m "SubmerchantPayments" with
    | none => pure []
    | some (JValue.arr vs) => decodeSubmerchantList vs
    | some _ => Except.error "SubmerchantPayments: unconvertible type"
  pure { Status := st, PaymentAmount := pa, PaymentTotal := pt, PaymentDate := pd,
         Currency := cu, NetTutar := nt, KesintiTutari := kt, Taksit := tk, KartMarka := km,
         MaskedPan := mp, OdemeTipi := ot, TestMode := tm, Returns := rt, ErrNo := en,
         ErrMsg := em, SubmerchantPayments := sp }

def decodeTransactionRecord (v : JValue) : Except String Transaction :=
  match v with
  | JValue.obj m => do
    let a ← getStrField m "IslemTipi"
    let b ← getStrField m "NetTutar"
    let c ← getStrField m "KesintiTutari"
    let d ← getStrField m "KesintiOrani"
    let e ← getStrField m "IslemTutari"
    let f ← getStrField m "OdemeTutari"
    let g ← getStrField m "IslemTarihi"
    let h ← getStrField m "ParaBirimi"
    let i ← getStrField m "Taksit"
    let j ← getStrField m "KartMarka"
    let k ← getStrField m "KartNo"
    let l ← getStrField m "SiparisNo"
    let o ← getStrField m "OdemeTipi"
    pure { IslemTipi := a, NetTutar := b, KesintiTutari := c, KesintiOrani := d,
           IslemTutari := e, OdemeTutari := f, IslemTarihi := g, ParaBirimi := h,
           Taksit := i, KartMarka := j, KartNo := k, SiparisNo := l, OdemeTipi := o }
  | _ => .error "Transaction: unconvertible type"

def decodeTransactionList (vs : List JValue) : Except String (List Transaction) :=
  vs.foldr (fun v acc => do
    let x ← decodeTransactionRecord v
    let rest ← acc
    pure (x :: rest)) (pure [])

def decodeTransactionDetails (m : List (String × JValue)) : Except String TransactionDetailsResponse := do
  let st ← getStrField m "Status"
  let tr ← match lookupCI m "Transactions" with
    | none => pure []
    | some (JValue.arr vs) => decodeTransactionList vs
    | some _ => Except.error "Transactions: unconvertible type"
  let em ← getStrField m "ErrMsg"
  pure { Status := st, Transactions := tr, ErrMsg := em }

/-- `MerchantStatusInquiry`, generalized over the decoder applied to the
envelope's data payload (the concrete service uses `decodeStatusInquiry`).
On a non-"success" envelope status the call fails with the gateway's
message before any decoding. -/
def merchantStatusInquiryWith
    (dec : List (String × JValue) → Except String StatusInquiryResponse)
    (env : HttpEnv String) (cfg : PayTRConfig) (req : StatusInquiryRequest) :
    Except String StatusInquiryResponse :=
  match sendRequest env (encodeStatusInquiryPayload (statusInquiryPayload cfg req)) durumSorguURL with
  | .error e => .error e
  | .ok paytrResp =>
    if paytrResp.status ≠ "success" then .error ("PayTR error: " ++ paytrResp.message)
    else
      match dec paytrResp.data with
      | .error e => .error ("error decoding response: " ++ e)
      | .ok result => .ok result

def merchantStatusInquiry (env : HttpEnv String) (cfg : PayTRConfig) (req : StatusInquiryRequest) :
    Except String StatusInquiryResponse :=
  merchantStatusInquiryWith decodeStatusInquiry env cfg req

/-- `GetTransactionDetails`: decodes the data payload with no check of the
envelope status. -/
def getTransactionDetails (env : HttpEnv String) (cfg : PayTRConfig) (req : TransactionDetailsRequest) :
    Except String TransactionDetailsResponse :=
  match sendRequest env (encodeTransactionDetailsPayload (transactionDetailsPayload cfg req)) islemDokumuURL with
  | .error e => .error e
  | .ok paytrResp =>
    match decodeTransactionDetails paytrResp.data with
    | .error e => .error ("error decoding response: " ++ e)
    | .ok result => .ok result

/-!
Specification-side definition, written from the spec's words, for the
refinement claims: "concatenate, in fixed order, merchant ID, user IP,
merchant order ID, email, amount formatted with exactly two decimal
places, payment type, installment count, currency, test-mode flag,
non-3D flag; append the salt; compute a keyed hash (HMAC-SHA256) over
the result using the secret key; encode the digest as base64."
-/

def specPrimaryToken (cfg : PayTRConfig) (c : CommonPaymentRequest) : String :=
  base64Encode (hmacSha256 (strBytes cfg.MerchantKey)
    (strBytes (cfg.MerchantID ++ c.UserIP ++ c.MerchantOid ++ c.Email ++
      formatFloat2 c.PaymentAmount ++ c.PaymentType ++ c.InstallmentCount ++
      c.Currency ++ c.TestMode ++ c.NonThreeD ++ cfg.MerchantSalt)))

/-!
Auxiliary definitions for the analysis of the token input and for
concrete test fixtures.
-/

/-- The string actually hashed by `generateToken`: the concatenated
signed fields with the merchant salt appended. -/
def hmacInputPrimary (cfg : PayTRConfig) (req : CommonPaymentRequest) : String :=
  hashStr cfg req ++ cfg.MerchantSalt

/-- The ten signed contributions of the primary scheme, in hashing order. -/
def signedContrib (cfg : PayTRConfig) (req : CommonPaymentRequest) : List String :=
  [cfg.MerchantID, req.UserIP, req.MerchantOid, req.Email,
   formatFloat2 req.PaymentAmount, req.PaymentType, req.InstallmentCount,
   req.Currency, req.TestMode, req.NonThreeD]

def concatData : List String → List Char → List Char
  | [], t => t
  | a :: rest, t => a.data ++ concatData rest t

/-- Field lookup in a serialized JSON object. -/
def jLookup (v : JValue) (k : String) : Option JValue :=
  match v with
  | JValue.obj fs => (fs.find? (fun kv => kv.1 == k)).map (fun kv => kv.2)
  | _ => none

def cfg0 : PayTRConfig := { MerchantID := "m", MerchantKey := "key", MerchantSalt := "salt" }

def common0 : CommonPaymentRequest :=
  { MerchantID := "", UserIP := "", MerchantOid := "", Email := "", PaymentAmount := 0,
    PaymentType := "", Currency := "", TestMode := "", NonThreeD := "", MerchantOkURL := "",
    MerchantFailURL := "", UserName := "", UserAddress := "", UserPhone := "", UserBasket := "",
    DebugOn := "", ClientLang := "", PayTRToken := "", InstallmentCount := "" }

def c4base : CommonPaymentRequest :=
  { common0 with
      Email := "e", PaymentType := "card", InstallmentCount := "0",
      Currency := "TL", TestMode := "1", NonThreeD := "0" }

def c4r1 : CommonPaymentRequest := { c4base with UserIP := "ab", MerchantOid := "c" }

def c4r2 : CommonPaymentRequest := { c4base with UserIP := "a", MerchantOid := "bc" }

def c4r3 : CommonPaymentRequest := { c4base with PaymentAmount := mkRat 100001 1000 }

def c4r4 : CommonPaymentRequest := { c4base with PaymentAmount := mkRat 100002 1000 }

def c4r5 : CommonPaymentRequest := { c4base with MerchantOid := "o1" }

def c4r6 : CommonPaymentRequest := { c4base with MerchantOid := "o2" }

def c6req : AddNewCardRequest :=
  { UserID := "u", CardOwner := "Bob", CardNumber := "4111111111111111", ExpiryMonth := "12",
    ExpiryYear := "30", CVV := "000", CardType := "", UserIP := "1.2.3.4", MerchantOid := "oid1",
    Email := "a@b", UserName := "Alice", UserAddress := "", UserPhone := "", MerchantOkURL := "",
    MerchantFailURL := "", ClientLang := "", Currency := "USD", PaymentAmount := 50 }

/-- A deterministic transport environment whose stages all succeed and whose
deserialization stage yields the fixed envelope `r`. -/
def envOf (r : PayTRResponse) : HttpEnv String :=
  { marshal := fun _ => .ok []
    newRequest := fun m u b => .ok { method := m, url := u, body := b, contentType := "" }
    doCall := fun _ => .ok { statusCode := 200, bodyBytes := [] }
    readAll := fun resp => .ok resp.bodyBytes
    unmarshal := fun _ => .ok r }

def respFail : PayTRResponse := { status := "failed", message := "boom", data := [] }

def respEmptySuccess : PayTRResponse := { status := "success", message := "ok", data := [] }

def respDataSuccess : PayTRResponse :=
  { status := "success", message := "ok", data := [("status", JValue.str "success")] }

def zeroStatusInquiry : StatusInquiryResponse :=
  { Status := "", PaymentAmount := "", PaymentTotal := "", PaymentDate := "", Currency := "",
    NetTutar := "", KesintiTutari := "", Taksit := "", KartMarka := "", MaskedPan := "",
    OdemeTipi := "", TestMode := "", Returns := "", ErrNo := "", ErrMsg := "",
    SubmerchantPayments := [] }

def rn0 : NewCardPaymentRequest :=
  { common := common0, CardOwner := "", CardNumber := "", ExpiryMonth := "", ExpiryYear := "",
    CVV := "", CardType := "", StoreCard := "" }

def rs0 : SavedCardPaymentRequest :=
  { common := common0, UToken := "", CToken := "", CVV := "", RecurringPayment := "" }

def rf0 : RefundRequest := { MerchantOid := "", ReturnAmount := 0, ReferenceNo := "" }

def rq0 : StatusInquiryRequest := { MerchantOid := "" }

def rt0 : TransactionDetailsRequest := { StartDate := "", EndDate := "", Dummy := 0 }

def c10r1 : CommonPaymentRequest :=
  { common0 with MerchantID := "caller-mid", PayTRToken := "preset", UserIP := "ip" }

def c10r2 : CommonPaymentRequest :=
  { common0 with MerchantID := "other-mid", PayTRToken := "other", UserIP := "ip" }

/-!
Helper lemmas.
-/

theorem concatData_append (p q : List String) (t : List Char) :
    concatData (p ++ q) t = concatData p (concatData q t) := by
  induction p with
  | nil => rfl
  | cons a rest ih => simp [concatData, ih, List.append_assoc]

theorem concatData_cancel (p : List String) {a b : List Char}
    (h : concatData p a = concatData p b) : a = b := by
  induction p with
  | nil => exact h
  | cons x rest ih =>
    apply ih
    exact List.append_cancel_left h

theorem hmacInputPrimary_data (cfg : PayTRConfig) (req : CommonPaymentRequest) :
    (hmacInputPrimary cfg req).data = concatData (signedContrib cfg req) cfg.MerchantSalt.data := by
  simp [hmacInputPrimary, hashStr, signedContrib, concatData, String.data_append, List.append_assoc]

theorem digitChar_isDigit {n : Nat} (h : n < 10) :
    48 ≤ (digitChar n).toNat ∧ (digitChar n).toNat ≤ 57 ∧ digitChar n ≠ '.' := by
  interval_cases n <;> exact ⟨by decide, by decide, by decide⟩

theorem natDigitsAux_isDigit (fuel : Nat) :
    ∀ (n : Nat) (c : Char), c ∈ natDigitsAux fuel n →
      48 ≤ c.toNat ∧ c.toNat ≤ 57 ∧ c ≠ '.' := by
  induction fuel with
  | zero => intro n c hc; simp [natDigitsAux] at hc
  | succ k ih =>
    intro n c hc
    rw [natDigitsAux] at hc
    by_cases h : n < 10
    · simp [h] at hc
      subst hc
      exact digitChar_isDigit h
    · simp [h] at hc
      rcases hc with hc | hc
      · exact ih (n / 10) c hc
      · subst hc
        exact digitChar_isDigit (Nat.mod_lt n (by omega))

theorem formatAbs2_shape (q : ℚ) :
    ∃ l c d, (formatAbs2 q).data = l ++ ['.', c, d] ∧
      (48 ≤ c.toNat ∧ c.toNat ≤ 57) ∧ (48 ≤ d.toNat ∧ d.toNat ≤ 57) ∧ '.' ∉ l := by
  refine ⟨natDigits (roundCentsAbs q / 100),
    digitChar (roundCentsAbs q / 10 % 10),
    digitChar (roundCentsAbs q % 10), ?_, ?_, ?_, ?_⟩
  · simp [formatAbs2, natStr, String.data_append, List.append_assoc]
  · have h := digitChar_isDigit (Nat.mod_lt (roundCentsAbs q / 10) (by omega))
    exact ⟨h.1, h.2.1⟩
  · have h := digitChar_isDigit (Nat.mod_lt (roundCentsAbs q) (by omega))
    exact ⟨h.1, h.2.1⟩
  · intro hmem
    have h := natDigitsAux_isDigit _ _ _ hmem
    exact h.2.2 rfl

/-!
Claim theorems.
-/

/-- Claim C1: for every CommonPaymentRequest and every credential set, the
token produced for new-card, saved-card, and recurring payments equals
base64(HMAC-SHA256(MerchantKey, MerchantID ++ UserIP ++ MerchantOid ++
Email ++ amount-formatted-with-two-decimals ++ PaymentType ++
InstallmentCount ++ Currency ++ TestMode ++ NonThreeD ++ MerchantSalt)),
with the fields concatenated in exactly that order and the salt appended
last before hashing. -/
theorem c1_primary_token_scheme :
    ∀ (cfg : PayTRConfig) (rn : NewCardPaymentRequest) (rs rr : SavedCardPaymentRequest),
    (newCardPaymentPayload cfg rn).common.PayTRToken = specPrimaryToken cfg rn.common
    ∧ (savedCardPaymentPayload cfg rs).common.PayTRToken = specPrimaryToken cfg rs.common
    ∧ (recurringPaymentPayload cfg rr).common.PayTRToken = specPrimaryToken cfg rr.common :=
  fun _ _ _ _ => ⟨rfl, rfl, rfl⟩

/-- Claim C2: the pre-salt token input of each secondary-scheme endpoint is
merchantID ++ orderID ++ two-decimal amount for refund; merchantID ++
orderID for status inquiry; merchantID ++ startDate ++ endDate for the
transaction report; binNumber ++ merchantID for BIN lookup; userToken for
the saved-card list; userToken ++ cardToken for saved-card delete; in each
case the salt is appended and the digest is HMAC-SHA256 under the secret
key, base64-encoded by the same algorithm as the primary scheme. -/
theorem c2_secondary_token_scheme :
    ∀ (cfg : PayTRConfig) (rf : RefundRequest) (st : StatusInquiryRequest)
      (tr : TransactionDetailsRequest) (bin ut ct : String),
    (refundPayload cfg rf).PayTRToken =
        generateSimpleToken cfg (cfg.MerchantID ++ rf.MerchantOid ++ formatFloat2 rf.ReturnAmount)
    ∧ (statusInquiryPayload cfg st).PayTRToken =
        generateSimpleToken cfg (cfg.MerchantID ++ st.MerchantOid)
    ∧ (transactionDetailsPayload cfg tr).PayTRToken =
        generateSimpleToken cfg (cfg.MerchantID ++ tr.StartDate ++ tr.EndDate)
    ∧ (binDetailsPayload cfg bin).PayTRToken = generateSimpleToken cfg (bin ++ cfg.MerchantID)
    ∧ (savedCardsPayload cfg ut).PayTRToken = generateSimpleToken cfg ut
    ∧ (deleteSavedCardPayload cfg ut ct).PayTRToken = generateSimpleToken cfg (ut ++ ct)
    ∧ (∀ d, generateSimpleToken cfg d =
        base64Encode (hmacSha256 (strBytes cfg.MerchantKey) (strBytes (d ++ cfg.MerchantSalt)))) :=
  fun _ _ _ _ _ _ _ => ⟨rfl, rfl, rfl, rfl, rfl, rfl, fun _ => rfl⟩

/-- Claim C5: RecurringPayment first forces the recurring flag to "1",
then computes the token exactly as SavedCardPayment does over the same
CommonPaymentRequest fields and sends to the same payment-submission
endpoint; apart from the forced flag the outbound request is identical to
the one SavedCardPayment would send for the same input. -/
theorem c5_recurring_is_saved_card_with_flag :
    ∀ (cfg : PayTRConfig) (req : SavedCardPaymentRequest),
    recurringPaymentPayload cfg req = { savedCardPaymentPayload cfg req with RecurringPayment := "1" }
    ∧ (recurringPaymentPayload cfg req).common.PayTRToken = generateToken cfg req.common
    ∧ (∀ env : HttpEnv String,
        recurringPayment env cfg req = savedCardPayment env cfg { req with RecurringPayment := "1" }) :=
  fun _ _ => ⟨rfl, rfl, fun _ => rfl⟩

/-- Claim C6, counterexample: the synthesized add-new-card payload does
not pass the caller's identity fields through unchanged — its user-name
field is populated from the card-owner field, overriding the request's
own UserName. -/
theorem c6_counterexample :
    (addNewCardPayload cfg0 c6req).common.UserName = "Bob"
    ∧ c6req.UserName = "Alice"
    ∧ (addNewCardPayload cfg0 c6req).common.UserName ≠ c6req.UserName :=
  ⟨rfl, rfl, by decide⟩

/-- Claim C6, amended: AddNewCard builds a new-card payment request with
payment amount 1 (smallest currency unit), test-mode forced to "1", the
fixed single-item basket [["Card Validation", "1", 1]], and store-card
"1"; the caller's identity/contact and card fields are passed through
unchanged except that the payload's user-name field is populated from the
caller's card-owner field; the token is computed by the primary scheme
over the synthesized request and it is sent to the shared
payment-submission path. -/
theorem c6_addNewCard_synthesis :
    ∀ (cfg : PayTRConfig) (req : AddNewCardRequest),
    (addNewCardPayload cfg req).common.PaymentAmount = 1
    ∧ (addNewCardPayload cfg req).common.TestMode = "1"
    ∧ (addNewCardPayload cfg req).common.UserBasket = "[[\x22Card Validation\x22, \x221\x22, 1]]"
    ∧ (addNewCardPayload cfg req).StoreCard = "1"
    ∧ (addNewCardPayload cfg req).common.UserIP = req.UserIP
    ∧ (addNewCardPayload cfg req).common.MerchantOid = req.MerchantOid
    ∧ (addNewCardPayload cfg req).common.Email = req.Email
    ∧ (addNewCardPayload cfg req).common.MerchantOkURL = req.MerchantOkURL
    ∧ (addNewCardPayload cfg req).common.MerchantFailURL = req.MerchantFailURL
    ∧ (addNewCardPayload cfg req).common.UserAddress = req.UserAddress
    ∧ (addNewCardPayload cfg req).common.UserPhone = req.UserPhone
    ∧ (addNewCardPayload cfg req).common.UserName = req.CardOwner
    ∧ (addNewCardPayload cfg req).CardOwner = req.CardOwner
    ∧ (addNewCardPayload cfg req).CardNumber = req.CardNumber
    ∧ (addNewCardPayload cfg req).ExpiryMonth = req.ExpiryMonth
    ∧ (addNewCardPayload cfg req).ExpiryYear = req.ExpiryYear
    ∧ (addNewCardPayload cfg req).CVV = req.CVV
    ∧ (addNewCardPayload cfg req).CardType = req.CardType
    ∧ (addNewCardPayload cfg req).common.PayTRToken =
        generateToken cfg { (addNewCardPayload cfg req).common with PayTRToken := "" }
    ∧ (∀ env : HttpEnv String,
        addNewCard env cfg req = sendRequest env (encodeNewCardRequest (addNewCardPayload cfg req)) odemeURL) :=
  fun _ _ => ⟨rfl, rfl, rfl, rfl, rfl, rfl, rfl, rfl, rfl, rfl, rfl, rfl, rfl, rfl, rfl, rfl,
    rfl, rfl, rfl, fun _ => rfl⟩

/-- Claim C7: the amount string used in the token input renders exactly
two fractional digits separated by "." — 100 renders as "100.00" and
99.999 renders as "100.00" under the rounding rule in use — both for the
primary scheme's amount field and for the refund token's amount field. -/
theorem c7_amount_two_decimals :
    (∀ (cfg : PayTRConfig) (r : CommonPaymentRequest),
      hashStr cfg r = cfg.MerchantID ++ r.UserIP ++ r.MerchantOid ++ r.Email ++
        formatFloat2 r.PaymentAmount ++ r.PaymentType ++ r.InstallmentCount ++
        r.Currency ++ r.TestMode ++ r.NonThreeD)
    ∧ (∀ (cfg : PayTRConfig) (rf : RefundRequest),
      (refundPayload cfg rf).PayTRToken =
        generateSimpleToken cfg (cfg.MerchantID ++ rf.MerchantOid ++ formatFloat2 rf.ReturnAmount))
    ∧ formatFloat2 100 = "100.00"
    ∧ formatFloat2 (99999 / 1000 : ℚ) = "100.00"
    ∧ (∀ q : ℚ, ∃ l c d, (formatFloat2 q).data = l ++ ['.', c, d] ∧
        (48 ≤ c.toNat ∧ c.toNat ≤ 57) ∧ (48 ≤ d.toNat ∧ d.toNat ≤ 57) ∧ '.' ∉ l) := by
  have hlit : (99999 / 1000 : ℚ) = mkRat 99999 1000 := by
    rw [Rat.mkRat_eq_divInt, Rat.divInt_eq_div]
    norm_num
  refine ⟨fun _ _ => rfl, fun _ _ => rfl, by decide, by rw [hlit]; decide, fun q => ?_⟩
  by_cases hq : q.num < 0
  · obtain ⟨l, c, d, hl, hc, hd, hdot⟩ := formatAbs2_shape q
    refine ⟨'-' :: l, c, d, ?_, hc, hd, ?_⟩
    · simp [formatFloat2, hq, String.data_append, hl]
    · intro hmem
      rw [List.mem_cons] at hmem
      rcases hmem with hmem | hmem
      · exact absurd hmem (by decide)
      · exact hdot hmem
  · obtain ⟨l, c, d, hl, hc, hd, hdot⟩ := formatAbs2_shape q
    exact ⟨l, c, d, by simp [formatFloat2, hq, hl], hc, hd, hdot⟩

/-- Claim C3: for every status-inquiry call, an envelope status other than
"success" makes MerchantStatusInquiry return an error carrying the
gateway's message without ever attempting to decode the data payload —
the result is the same for every decoder — and decoding is attempted
only when the envelope status equals "success". -/
theorem c3_status_inquiry_short_circuit :
    ∀ (dec : List (String × JValue) → Except String StatusInquiryResponse)
      (env : HttpEnv String) (cfg : PayTRConfig) (req : StatusInquiryRequest) (resp : PayTRResponse),
    sendRequest env (encodeStatusInquiryPayload (statusInquiryPayload cfg req)) durumSorguURL = .ok resp →
    ((resp.status ≠ "success" →
        merchantStatusInquiryWith dec env cfg req = .error ("PayTR error: " ++ resp.message))
     ∧ (resp.status = "success" →
        merchantStatusInquiryWith dec env cfg req =
          match dec resp.data with
          | .error e => .error ("error decoding response: " ++ e)
          | .ok result => .ok result)) := by
  intro dec env cfg req resp h
  unfold merchantStatusInquiryWith
  rw [h]
  constructor
  · intro hne
    simp [hne]
  · intro heq
    simp [heq]

/-- Claim C3 witness: a concrete transport whose envelope is
{status "failed", message "boom"} makes the status inquiry fail with the
gateway's message, for a decoder that would reject any payload. -/
theorem c3_witness :
    sendRequest (envOf respFail) (encodeStatusInquiryPayload (statusInquiryPayload cfg0 rq0)) durumSorguURL
        = .ok respFail
    ∧ respFail.status ≠ "success"
    ∧ merchantStatusInquiryWith (fun _ => .error "never") (envOf respFail) cfg0 rq0 =
        .error ("PayTR error: " ++ respFail.message) :=
  ⟨rfl, by decide,
    (c3_status_inquiry_short_circuit (fun _ => .error "never") (envOf respFail) cfg0 rq0 respFail
      rfl).1 (by decide)⟩

/-- Claim C4, counterexample: field-boundary ambiguity of the plain
concatenation is exploitable — the requests (UserIP "ab", MerchantOid "c")
and (UserIP "a", MerchantOid "bc") produce equal hash inputs and hence
equal tokens; moreover two requests agreeing on all signed fields except
exactly the payment amount (100.001 vs 100.002) also produce equal
tokens, since both amounts render as "100.00". -/
theorem c4_counterexample :
    hmacInputPrimary cfg0 c4r1 = hmacInputPrimary cfg0 c4r2
    ∧ generateToken cfg0 c4r1 = generateToken cfg0 c4r2
    ∧ c4r1.UserIP ≠ c4r2.UserIP
    ∧ c4r1.MerchantOid ≠ c4r2.MerchantOid
    ∧ generateToken cfg0 c4r3 = generateToken cfg0 c4r4
    ∧ c4r3.PaymentAmount ≠ c4r4.PaymentAmount
    ∧ c4r3.UserIP = c4r4.UserIP ∧ c4r3.MerchantOid = c4r4.MerchantOid
    ∧ c4r3.Email = c4r4.Email ∧ c4r3.PaymentType = c4r4.PaymentType
    ∧ c4r3.InstallmentCount = c4r4.InstallmentCount ∧ c4r3.Currency = c4r4.Currency
    ∧ c4r3.TestMode = c4r4.TestMode ∧ c4r3.NonThreeD = c4r4.NonThreeD := by
  have h12 : hmacInputPrimary cfg0 c4r1 = hmacInputPrimary cfg0 c4r2 := by decide
  have h34 : hmacInputPrimary cfg0 c4r3 = hmacInputPrimary cfg0 c4r4 := by decide
  refine ⟨h12, ?_, by decide, by decide, ?_, by decide, rfl, rfl, rfl, rfl, rfl, rfl, rfl, rfl⟩
  · exact congrArg (fun z => base64Encode (hmacSha256 (strBytes cfg0.MerchantKey) (strBytes z))) h12
  · exact congrArg (fun z => base64Encode (hmacSha256 (strBytes cfg0.MerchantKey) (strBytes z))) h34

/-- Claim C4, amended: two requests whose ten signed contributions (nine
request fields, with the amount taken by its two-decimal rendering,
preceded by the configured merchant ID) agree except at exactly one
position produce distinct HMAC input strings; boundary ambiguity across
two adjacent fields, or two amounts with the same two-decimal rendering,
can still yield equal hash inputs and hence equal tokens. -/
theorem c4_one_contribution_change_distinct_input :
    ∀ (cfg : PayTRConfig) (r1 r2 : CommonPaymentRequest) (p s : List String) (x y : String),
    signedContrib cfg r1 = p ++ x :: s →
    signedContrib cfg r2 = p ++ y :: s →
    x ≠ y →
    hmacInputPrimary cfg r1 ≠ hmacInputPrimary cfg r2 := by
  intro cfg r1 r2 p s x y h1 h2 hxy heq
  apply hxy
  have hd : (hmacInputPrimary cfg r1).data = (hmacInputPrimary cfg r2).data := congrArg _ heq
  rw [hmacInputPrimary_data, hmacInputPrimary_data, h1, h2,
    concatData_append, concatData_append] at hd
  have hmid := concatData_cancel p hd
  simp only [concatData] at hmid
  exact String.ext (List.append_cancel_right hmid)

/-- Claim C4 witness: two concrete requests differing only in the merchant
order ID ("o1" vs "o2") have distinct HMAC input strings. -/
theorem c4_witness :
    signedContrib cfg0 c4r5 = ["m", ""] ++ "o1" :: ["e", "0.00", "card", "0", "TL", "1", "0"]
    ∧ signedContrib cfg0 c4r6 = ["m", ""] ++ "o2" :: ["e", "0.00", "card", "0", "TL", "1", "0"]
    ∧ "o1" ≠ "o2"
    ∧ hmacInputPrimary cfg0 c4r5 ≠ hmacInputPrimary cfg0 c4r6 :=
  ⟨by decide, by decide, by decide,
    c4_one_contribution_change_distinct_input cfg0 c4r5 c4r6 ["m", ""]
      ["e", "0.00", "card", "0", "TL", "1", "0"] "o1" "o2" (by decide) (by decide) (by decide)⟩

/-- Claim C8: sendRequest fails exactly when one of its five stages —
payload serialization, request construction, the transport call, reading
the body, or deserialization — fails, each surfacing that stage's error
value unchanged; at most one POST is issued per call (exactly one when
serialization and request construction succeed); and on success the
decoded envelope is returned unchanged. -/
theorem c8_sendRequest_error_stages :
    ∀ (ε : Type) (env : HttpEnv ε) (payload : JValue) (url : String),
    ((sendRequestInstr env payload url).2 ≤ 1)
    ∧ ((sendRequestInstr env payload url).2 = 1 ↔
        ∃ b r, env.marshal payload = .ok b ∧ env.newRequest "POST" url b = .ok r)
    ∧ (∀ e, sendRequest env payload url = .error e ↔
        (env.marshal payload = .error e
         ∨ (∃ b, env.marshal payload = .ok b ∧ env.newRequest "POST" url b = .error e)
         ∨ (∃ b r, env.marshal payload = .ok b ∧ env.newRequest "POST" url b = .ok r ∧
              env.doCall { r with contentType := "application/json" } = .error e)
         ∨ (∃ b r resp, env.marshal payload = .ok b ∧ env.newRequest "POST" url b = .ok r ∧
              env.doCall { r with contentType := "application/json" } = .ok resp ∧
              env.readAll resp = .error e)
         ∨ (∃ b r resp body, env.marshal payload = .ok b ∧ env.newRequest "POST" url b = .ok r ∧
              env.doCall { r with contentType := "application/json" } = .ok resp ∧
              env.readAll resp = .ok body ∧ env.unmarshal body = .error e)))
    ∧ (∀ result, sendRequest env payload url = .ok result ↔
        ∃ b r resp body, env.marshal payload = .ok b ∧ env.newRequest "POST" url b = .ok r ∧
          env.doCall { r with contentType := "application/json" } = .ok resp ∧
          env.readAll resp = .ok body ∧ env.unmarshal body = .ok result) := by
  intro ε env payload url
  unfold sendRequest sendRequestInstr
  cases hm : env.marshal payload with
  | error e0 => simp [hm]
  | ok b0 =>
    cases hn : env.newRequest "POST" url b0 with
    | error e0 => simp [hm, hn]
    | ok r0 =>
      cases hd : env.doCall { r0 with contentType := "application/json" } with
      | error e0 => simp [hm, hn, hd]
      | ok resp0 =>
        cases hr : env.readAll resp0 with
        | error e0 => simp [hm, hn, hd, hr]
        | ok body0 =>
          cases hu : env.unmarshal body0 with
          | error e0 => simp [hm, hn, hd, hr, hu]
          | ok res0 => simp [hm, hn, hd, hr, hu]

/-- With a transport environment whose stages all succeed and whose
deserialization yields the fixed envelope `E`, sendRequest returns `E`
for every payload and URL. -/
theorem sendRequest_ok_of_mock (env : HttpEnv String) (E : PayTRResponse)
    (resp0 : HttpResponse) (body0 : List Nat)
    (hm : ∀ p, ∃ b, env.marshal p = .ok b)
    (hn : ∀ m u b, ∃ r, env.newRequest m u b = .ok r)
    (hd : ∀ r, env.doCall r = .ok resp0)
    (hra : env.readAll resp0 = .ok body0)
    (hu : env.unmarshal body0 = .ok E) :
    ∀ (payload : JValue) (url : String), sendRequest env payload url = .ok E := by
  intro payload url
  obtain ⟨b, hb⟩ := hm payload
  obtain ⟨r, hr⟩ := hn "POST" url b
  simp [sendRequest, sendRequestInstr, hb, hr, hd, hra, hu]

/-- Claim C9, counterexample: with a transport that returns the fixed
success envelope {status "success", message "ok", data empty} for any
request, MerchantStatusInquiry returns without error, but the decoded
result's Status field is the empty string, not "success". -/
theorem c9_counterexample :
    respEmptySuccess.status = "success"
    ∧ merchantStatusInquiry (envOf respEmptySuccess) cfg0 rq0 = .ok zeroStatusInquiry
    ∧ zeroStatusInquiry.Status ≠ "success" :=
  ⟨rfl, rfl, by decide⟩

/-- Claim C9, amended: with a mock transport returning a fixed success
envelope whose data payload itself maps "status" to "success", every
operation returns without error; the envelope-returning operations yield
the envelope (status "success") itself, and the decoded results of
MerchantStatusInquiry and GetTransactionDetails have Status "success". -/
theorem c9_success_envelope_roundtrip :
    ∀ (env : HttpEnv String) (E : PayTRResponse) (resp0 : HttpResponse) (body0 : List Nat)
      (cfg : PayTRConfig) (rn : NewCardPaymentRequest) (rs rr : SavedCardPaymentRequest)
      (rf : RefundRequest) (bin ut ct : String) (ra : AddNewCardRequest)
      (rq : StatusInquiryRequest) (rt : TransactionDetailsRequest),
    (∀ p, ∃ b, env.marshal p = .ok b) →
    (∀ m u b, ∃ r, env.newRequest m u b = .ok r) →
    (∀ r, env.doCall r = .ok resp0) →
    env.readAll resp0 = .ok body0 →
    env.unmarshal body0 = .ok E →
    E.status = "success" →
    E.data = [("status", JValue.str "success")] →
    newCardPayment env cfg rn = .ok E
    ∧ savedCardPayment env cfg rs = .ok E
    ∧ recurringPayment env cfg rr = .ok E
    ∧ refundPayment env cfg rf = .ok E
    ∧ getBinDetails env cfg bin = .ok E
    ∧ getSavedCards env cfg ut = .ok E
    ∧ deleteSavedCard env cfg ut ct = .ok E
    ∧ addNewCard env cfg ra = .ok E
    ∧ merchantStatusInquiry env cfg rq = .ok { zeroStatusInquiry with Status := "success" }
    ∧ getTransactionDetails env cfg rt = .ok { Status := "success", Transactions := [], ErrMsg := "" } := by
  intro env E resp0 body0 cfg rn rs rr rf bin ut ct ra rq rt hm hn hd hra hu hs hdata
  have hsend := sendRequest_ok_of_mock env E resp0 body0 hm hn hd hra hu
  refine ⟨hsend _ _, hsend _ _, hsend _ _, hsend _ _, hsend _ _, hsend _ _, hsend _ _, hsend _ _, ?_, ?_⟩
  · unfold merchantStatusInquiry merchantStatusInquiryWith
    rw [hsend _ _]
    simp [hs, hdata]
    rfl
  · unfold getTransactionDetails
    rw [hsend _ _]
    simp [hdata]
    rfl

/-- Claim C9 witness: the amended theorem applied to the concrete constant
environment delivering the envelope {status "success", message "ok",
data {status: "success"}}. -/
theorem c9_witness :
    merchantStatusInquiry (envOf respDataSuccess) cfg0 rq0 =
      .ok { zeroStatusInquiry with Status := "success" }
    ∧ getTransactionDetails (envOf respDataSuccess) cfg0 rt0 =
      .ok { Status := "success", Transactions := [], ErrMsg := "" }
    ∧ newCardPayment (envOf respDataSuccess) cfg0 rn0 = .ok respDataSuccess :=
  have h := c9_success_envelope_roundtrip (envOf respDataSuccess) respDataSuccess
    { statusCode := 200, bodyBytes := [] } [] cfg0 rn0 rs0 rs0 rf0 "" "" "" c6req rq0 rt0
    (fun _ => ⟨[], rfl⟩)
    (fun m u b => ⟨{ method := m, url := u, body := b, contentType := "" }, rfl⟩)
    (fun _ => rfl) rfl rfl rfl rfl
  ⟨h.2.2.2.2.2.2.2.2.1, h.2.2.2.2.2.2.2.2.2, h.1⟩

/-- Claim C10: the primary-scheme token depends only on the configured
credentials and the nine signed request fields — two requests agreeing on
UserIP, MerchantOid, Email, PaymentAmount, PaymentType, InstallmentCount,
Currency, TestMode and NonThreeD get the same token no matter how their
MerchantID, PayTRToken or any unsigned field differ; the payload's token
is the freshly computed one (any pre-set PayTRToken is overwritten); and
the serialized payload's merchant_id field is the caller-supplied value,
which may therefore differ from the configured merchant ID that was
signed. -/
theorem c10_token_depends_only_on_signed_fields :
    ∀ (cfg : PayTRConfig) (r1 r2 : CommonPaymentRequest),
    (r1.UserIP = r2.UserIP → r1.MerchantOid = r2.MerchantOid → r1.Email = r2.Email →
     r1.PaymentAmount = r2.PaymentAmount → r1.PaymentType = r2.PaymentType →
     r1.InstallmentCount = r2.InstallmentCount → r1.Currency = r2.Currency →
     r1.TestMode = r2.TestMode → r1.NonThreeD = r2.NonThreeD →
     generateToken cfg r1 = generateToken cfg r2)
    ∧ (∀ rn : NewCardPaymentRequest,
        (newCardPaymentPayload cfg rn).common.PayTRToken = generateToken cfg rn.common
        ∧ jLookup (encodeNewCardRequest (newCardPaymentPayload cfg rn)) "merchant_id" =
            some (JValue.str rn.common.MerchantID))
    ∧ (∀ rs : SavedCardPaymentRequest,
        (savedCardPaymentPayload cfg rs).common.PayTRToken = generateToken cfg rs.common
        ∧ jLookup (encodeSavedCardRequest (savedCardPaymentPayload cfg rs)) "merchant_id" =
            some (JValue.str rs.common.MerchantID)) := by
  intro cfg r1 r2
  refine ⟨?_, fun rn => ⟨rfl, rfl⟩, fun rs => ⟨rfl, rfl⟩⟩
  intro h1 h2 h3 h4 h5 h6 h7 h8 h9
  simp only [generateToken, hashStr, h1, h2, h3, h4, h5, h6, h7, h8, h9]

/-- Claim C10 witness: two concrete requests differing in caller-supplied
MerchantID and pre-set PayTRToken but agreeing on the signed fields get
the same token. -/
theorem c10_witness :
    c10r1.MerchantID ≠ c10r2.MerchantID
    ∧ c10r1.PayTRToken ≠ c10r2.PayTRToken
    ∧ generateToken cfg0 c10r1 = generateToken cfg0 c10r2 :=
  ⟨by decide, by decide,
    (c10_token_depends_only_on_signed_fields cfg0 c10r1 c10r2).1
      rfl rfl rfl rfl rfl rfl rfl rfl rfl⟩
